import Mathlib

/-!
Shallow embedding of the arcanya interpreter (src/expression.rs, src/env.rs,
src/eval.rs, src/builtin.rs, src/main.rs).

Modelling conventions:
* `Expression` follows the tagged union in `expression.rs` (`Nil` also stands
  for the `Void` constant used by `eval.rs`); a `Builtin` is identified by its
  name, and dispatch of the native function pointer happens by name in
  `apply_builtin`, mirroring the registry in `builtin.rs`.
* `f64` payloads are modelled as rationals; the claims under study only involve
  values on which `f64` arithmetic is exact.
* The reference-counted, interior-mutable environment graph is modelled as a
  store (list) of frames addressed by index, with parent links as indices;
  evaluation threads the store.
* Rust `Result` propagation is `Res.err`; an `unwrap` failure or an
  out-of-bounds index (a process abort) is `Res.panic`; `Res.timeout` marks
  exhaustion of the step fuel of the model; `Res.stuck` marks entry into a
  builtin outside the modelled fragment (I/O builtins etc.), which no theorem
  below ever reaches.
* Error message strings are abridged (the Rust messages interpolate colored
  `Display` output); no claim depends on message text.
-/

namespace Arcanya

/-- The value/AST type of `expression.rs` (`Expression`). -/
inductive Expression where
  | integer (i : Int)
  | float (q : ℚ)
  | str (s : String)
  | symbol (s : String)
  | list (l : List Expression)
  | table (t : List (String × Expression))
  | function (arguments : List Expression) (body : Expression)
  | builtin (name : String)
  | nil

/-- `expr == Expression::Symbol("_")`, the placeholder test used by `eval_call`. -/
def is_underscore : Expression → Bool
  | .symbol s => s = "_"
  | _ => false

/-- Association-list lookup, modelling `HashMap::get`. -/
def assocGet : List (String × Expression) → String → Option Expression
  | [], _ => none
  | (k, v) :: rest, s => if k = s then some v else assocGet rest s

/-- Association-list insert, modelling `HashMap::insert` (replace or append). -/
def assocSet : List (String × Expression) → String → Expression → List (String × Expression)
  | [], s, v => [(s, v)]
  | (k, w) :: rest, s, v => if k = s then (s, v) :: rest else (k, w) :: assocSet rest s v

/-- One environment frame (`env.rs` `Env`): local bindings plus a parent index.
(The Rust field `local` is a Lean keyword, hence `locals`.) -/
structure Env where
  parent : Option Nat
  locals : List (String × Expression)

/-- The heap of frames; `Rc<RefCell<Env>>` handles become indices into it. -/
abbrev Store := List Env

/-- `Env::new`: a frame seeded with empty `__EXPORTED` and `__IMPORTED` tables. -/
def Env.new (parent : Option Nat) : Env :=
  ⟨parent, [("__EXPORTED", .table []), ("__IMPORTED", .table [])]⟩

/-- `Env::set_local` on the frame at index `n` (no-op on a dangling index,
which `Rc` makes unreachable in the source). -/
def set_local (st : Store) (n : Nat) (k : String) (v : Expression) : Store :=
  match st.get? n with
  | some f => st.set n { f with locals := assocSet f.locals k v }
  | none => st

/-- `Env::set_parent`: write into the parent frame's locals, or locally at a root. -/
def set_parent (st : Store) (i : Nat) (k : String) (v : Expression) : Store :=
  match st.get? i with
  | some f =>
    match f.parent with
    | some p => set_local st p k v
    | none => set_local st i k v
  | none => st

/-- `Env::set_global`: delegate one level to `set_parent`, or write locally at a root. -/
def set_global (st : Store) (i : Nat) (k : String) (v : Expression) : Store :=
  match st.get? i with
  | some f =>
    match f.parent with
    | some p => set_parent st p k v
    | none => set_local st i k v
  | none => st

/-- Result of `Env::get`:  `found`/`notFound` are `Some`/`None`, `panic` an
`unwrap` failure inside `get`, `timeout` fuel exhaustion (the source can
recurse forever through the `__IMPORTED` fallback). -/
inductive Lookup where
  | found (v : Expression)
  | notFound
  | panic
  | timeout

/-- `Env::get` (env.rs lines 23-40): local map, else parent chain (each level
with its own fallback), else the `__IMPORTED` table found by a full recursive
lookup of `"__IMPORTED"` from this frame, unwrapped and read as a table. -/
def envGet : Nat → Store → Nat → String → Lookup
  | 0, _, _, _ => .timeout
  | fuel + 1, st, i, s =>
    match st.get? i with
    | none => .panic
    | some f =>
      match assocGet f.locals s with
      | some v => .found v
      | none =>
        match (match f.parent with
               | some p => envGet fuel st p s
               | none => Lookup.notFound) with
        | .found v => .found v
        | .notFound =>
          match envGet fuel st i "__IMPORTED" with
          | .found (.table t) =>
            match assocGet t s with
            | some v => .found v
            | none => .notFound
          | .found _ => .panic
          | .notFound => .panic
          | .panic => .panic
          | .timeout => .timeout
        | .panic => .panic
        | .timeout => .timeout

/-- Result of an evaluation step, threading the frame store.
`ok`/`err` mirror Rust's `Result` (mutations before an `Err` persist, so `err`
carries the store too); `panic` is a process abort (`unwrap`/index out of
bounds); `timeout` is fuel exhaustion of the model; `stuck` marks a builtin
outside the modelled fragment. -/
inductive Res (α : Type) where
  | ok (a : α) (st : Store)
  | err (msg : String) (st : Store)
  | panic
  | timeout
  | stuck

/-- The `while let Expression::Symbol(s) = value` loop in `eval_expression`'s
Symbol arm (eval.rs lines 28-30): chase symbol-valued bindings, panicking on
the inner `unwrap` when a link is unbound.  (The `if let Symbol` that follows
the loop in the source is unreachable: the loop only exits on a non-symbol.) -/
def sym_loop : Nat → Store → Nat → Expression → Res Expression
  | fuel, st, i, v =>
    match v with
    | .symbol s =>
      match fuel with
      | 0 => .timeout
      | fuel + 1 =>
        match envGet fuel st i s with
        | .found v' => sym_loop fuel st i v'
        | .notFound => .panic
        | .panic => .panic
        | .timeout => .timeout
    | _ => .ok v st

/-- Result of the argument-map loop of `eval_call`'s under/over-application
branch (eval.rs lines 79-84). -/
inductive BuildRes where
  | ok (m : List (String × Expression))
  | err (msg : String)
  | panic

/-- The loop `for i in 1..list.len()` of eval.rs lines 79-84: walk the argument
expressions with their position `j`, skip `_` placeholders, and insert
`arguments[j] ↦ arg` — `arguments[j]` panics out of bounds, and
`as_symbol_string()?` fails on a non-symbol parameter. -/
def build_map (arguments : List Expression) : List Expression → Nat →
    List (String × Expression) → BuildRes
  | [], _, mp => .ok mp
  | a :: rest, j, mp =>
    if is_underscore a then build_map arguments rest (j + 1) mp
    else
      match arguments.get? j with
      | none => .panic
      | some p =>
        match p with
        | .symbol s => build_map arguments rest (j + 1) (assocSet mp s a)
        | _ => .err "Not a symbol"

/-- eval.rs lines 86-95: the new body list, substituting each top-level symbol
that the map covers by its supplied argument expression. -/
def new_body (body_list : List Expression) (mp : List (String × Expression)) :
    List Expression :=
  body_list.map fun x =>
    match x with
    | .symbol s => (assocGet mp s).getD x
    | _ => x

/-- eval.rs lines 97-104: the parameters not covered by the map. -/
def new_arguments (arguments : List Expression) (mp : List (String × Expression)) :
    List Expression :=
  arguments.filter fun a =>
    match a with
    | .symbol s => (assocGet mp s).isNone
    | _ => true

/-- The names of the builtin registry, in the order of the `std` array of
`builtin.rs` `std_lib`. -/
def std_lib_names : List String :=
  ["+", "-", "*", "/", "%", "=", ">", ">=", "<", "<=", "and", "or",
   "function", "if", "define", "let", "let*", "eval", "eval-log", "lazy",
   "time", "concat", "range", "for", "for-i", "map", "fold", "filter",
   "print", "round", "web-server", "to-string", "to-symbol", "and-then",
   "exists", "concat-symbol", "append", "prepend", "index", "slice",
   "reverse", "length", "tangle", "type", "split", "read", "write", "zip",
   "zip-with", "import", "export", "module", "quote", "env", "apply"]

/-- `builtin.rs` `std_lib()`: a parentless frame holding the builtin registry
plus `t ↦ Symbol "t"` (the `TRUE` constant, added by a `set_global` that falls
through to `set_local` on the parentless frame).  Note: unlike `Env::new`,
this frame has no `__EXPORTED`/`__IMPORTED` entries. -/
def std_lib : Env :=
  ⟨none, std_lib_names.map (fun n => (n, Expression.builtin n)) ++ [("t", .symbol "t")]⟩

/-- `has_float` (builtin.rs lines 7-9). -/
def has_float (l : List Expression) : Bool :=
  l.any fun x =>
    match x with
    | .float _ => true
    | _ => false

/-- `evaluated.iter().map(|x| x.as_f64()).collect::<Result<Vec<f64>>>()`:
all-or-nothing extraction of float payloads (`as_f64` accepts only `Float`,
expression.rs lines 44-50). -/
def map_f64 : List Expression → Option (List ℚ)
  | [] => some []
  | .float q :: rest => (map_f64 rest).map (q :: ·)
  | _ => none

/-- The `as_i64` analogue (`as_i64` accepts only `Integer`). -/
def map_i64 : List Expression → Option (List Int)
  | [] => some []
  | .integer z :: rest => (map_i64 rest).map (z :: ·)
  | _ => none

/-- The copy loop of `IMPORT` (builtin.rs lines 824-837): for each exported
entry, `get_mut_local("__IMPORTED").unwrap()` on the importer frame (panic when
that frame has no local `__IMPORTED`), inserting into it when it is a Table
(the `if let` silently skips a non-Table). -/
def copy_imported : Store → Nat → List (String × Expression) → Res Unit
  | st, _, [] => .ok () st
  | st, i, (k, v) :: rest =>
    match st.get? i with
    | none => .panic
    | some f =>
      match assocGet f.locals "__IMPORTED" with
      | none => .panic
      | some (.table t) =>
        copy_imported (set_local st i "__IMPORTED" (.table (assocSet t k v))) i rest
      | some _ => copy_imported st i rest

/-- The binding loop of full application (eval.rs lines 114-122) followed by
the body evaluation (line 124): for each parameter/argument pair, evaluate the
argument in the caller's frame `callerIdx`, then `set_local` the value under
the parameter's symbol name into the fresh frame `frameIdx` (a non-symbol
parameter fails `as_symbol_string()?`); finally evaluate the body in
`frameIdx`.  The two index ranges of the source loop have equal length in the
full-application branch; a mismatch is unreachable. -/
def bind_loop (ev : Nat → Store → Expression → Res Expression)
    (callerIdx frameIdx : Nat) :
    Store → List Expression → List Expression → Expression → Res Expression
  | st, [], [], body => ev frameIdx st body
  | st, p :: ps, a :: rest, body =>
    match ev callerIdx st a with
    | .ok v st' =>
      match p with
      | .symbol s => bind_loop ev callerIdx frameIdx (set_local st' frameIdx s v) ps rest body
      | _ => .err "Not a symbol" st'
    | r => r
  | _, _, _, _ => .panic

/-- The file system seen by `IMPORT`, abstracted at the collaborator boundary
of the spec: a path maps to the already-parsed top-level forms of the file
(`fs::read_to_string` + the external parser are out of the modelled core). -/
abbrev Fs := List (String × List Expression)

mutual

/-- `eval_expression` (eval.rs lines 11-57).  Atoms self-evaluate; a Symbol is
resolved by `Env::get` with `unwrap_or(Void)` and the symbol-chasing loop; a
List is dispatched as a call iff its head is a Symbol with a binding, or the
head (evaluated on the spot, side effects kept, errors discarded) yields a
Function — otherwise the list is returned unchanged as data.  `list[0]` on an
empty list panics. -/
def eval_expression : Nat → Fs → Store → Nat → Expression → Res Expression
  | 0, _, _, _, _ => .timeout
  | fuel + 1, fs, st, i, e =>
    match e with
    | .integer _ => .ok e st
    | .float _ => .ok e st
    | .str _ => .ok e st
    | .builtin _ => .ok e st
    | .function _ _ => .ok e st
    | .table _ => .ok e st
    | .nil => .ok e st
    | .symbol s =>
      match envGet fuel st i s with
      | .found v => sym_loop fuel st i v
      | .notFound => .ok .nil st
      | .panic => .panic
      | .timeout => .timeout
    | .list l =>
      match l.get? 0 with
      | none => .panic
      | some h =>
        match h with
        | .symbol s =>
          match envGet fuel st i s with
          | .found _ => eval_call fuel fs st i l
          | .notFound =>
            match eval_expression fuel fs st i h with
            | .ok (.function _ _) st' => eval_call fuel fs st' i l
            | .ok _ st' => .ok (.list l) st'
            | .err _ st' => .ok (.list l) st'
            | .panic => .panic
            | .timeout => .timeout
            | .stuck => .stuck
          | .panic => .panic
          | .timeout => .timeout
        | _ =>
          match eval_expression fuel fs st i h with
          | .ok (.function _ _) st' => eval_call fuel fs st' i l
          | .ok _ st' => .ok (.list l) st'
          | .err _ st' => .ok (.list l) st'
          | .panic => .panic
          | .timeout => .timeout
          | .stuck => .stuck

termination_by structural fuel => fuel

/-- The `while let Expression::List(_) = caller` loop of `eval_call`
(eval.rs lines 62-64). -/
def caller_loop : Nat → Fs → Store → Nat → Expression → Res Expression
  | fuel, fs, st, i, c =>
    match c with
    | .list _ =>
      match fuel with
      | 0 => .timeout
      | fuel + 1 =>
        match eval_expression fuel fs st i c with
        | .ok c' st' => caller_loop fuel fs st' i c'
        | r => r
    | _ => .ok c st

termination_by structural fuel => fuel

/-- `eval_call` (eval.rs lines 59-132).  Evaluate the head, chase List results,
then dispatch: a Function either enters the under/over-application branch
(argument count mismatch, or a `_` anywhere in the call) producing a
substituted Function (or Nil for a non-List body), or full application via
`bind_loop`; a Builtin receives the raw argument slice; any other value is
returned as-is.  The fresh frame `e` (parent: the caller's frame, empty local
map) is allocated on entry to the Function arm, as in the source.
(The global `EVALUATION_COUNT` increment is diagnostic only and not
modelled.) -/
def eval_call : Nat → Fs → Store → Nat → List Expression → Res Expression
  | 0, _, _, _, _ => .timeout
  | fuel + 1, fs, st, i, l =>
    match l.get? 0 with
    | none => .panic
    | some h =>
      match eval_expression fuel fs st i h with
      | .ok c st' =>
        match caller_loop fuel fs st' i c with
        | .ok caller st'' =>
          match caller with
          | .function arguments body =>
            let st₃ := st'' ++ [⟨some i, []⟩]
            if arguments.length != l.length - 1 || l.any is_underscore then
              match body with
              | .list body_list =>
                match build_map arguments (l.drop 1) 0 [] with
                | .ok mp =>
                  .ok (.function (new_arguments arguments mp)
                        (.list (new_body body_list mp))) st₃
                | .err msg => .err msg st₃
                | .panic => .panic
              | _ => .ok .nil st₃
            else
              bind_loop (fun j st e => eval_expression fuel fs st j e) i st''.length
                st₃ arguments (l.drop 1) body
          | .builtin name => apply_builtin fuel fs st'' i name (l.drop 1)
          | .list l' => eval_call fuel fs st'' i l'
          | c' => .ok c' st''
        | r => r
      | r => r

termination_by structural fuel => fuel

/-- Sequential left-to-right evaluation of a builtin's arguments, stopping at
the first error (`collect::<Result<Vec<_>>>`). -/
def eval_args : Nat → Fs → Store → Nat → List Expression → Res (List Expression)
  | 0, _, _, _, _ => .timeout
  | _ + 1, _, st, _, [] => .ok [] st
  | fuel + 1, fs, st, i, a :: rest =>
    match eval_expression fuel fs st i a with
    | .ok v st' =>
      match eval_args fuel fs st' i rest with
      | .ok vs st'' => .ok (v :: vs) st''
      | .err msg st'' => .err msg st''
      | .panic => .panic
      | .timeout => .timeout
      | .stuck => .stuck
    | .err msg st' => .err msg st'
    | .panic => .panic
    | .timeout => .timeout
    | .stuck => .stuck

termination_by structural fuel => fuel

/-- `run` (main.rs lines 64-78) over pre-parsed top-level forms: evaluate each
form in sequence and return the last result.  A non-final form's result —
error included — is discarded (`run` does not `?` it); empty input is a parse
error. -/
def run_forms : Nat → Fs → Store → Nat → List Expression → Res Expression
  | 0, _, _, _, _ => .timeout
  | _ + 1, _, st, _, [] => .err "parse error" st
  | fuel + 1, fs, st, i, [f] => eval_expression fuel fs st i f
  | fuel + 1, fs, st, i, f :: rest =>
    match eval_expression fuel fs st i f with
    | .ok _ st' => run_forms fuel fs st' i rest
    | .err _ st' => run_forms fuel fs st' i rest
    | .panic => .panic
    | .timeout => .timeout
    | .stuck => .stuck

termination_by structural fuel => fuel

/-- Dispatch of the modelled builtins by registry name (builtin.rs).  The
builtins the claims depend on — `+`, `define`, `let`, `quote`, `import`,
`export` — are translated from the source; every other registry entry (I/O,
the remaining arithmetic/list utilities, ...) is outside the modelled fragment
and yields `stuck`, which no theorem below relies on. -/
def apply_builtin : Nat → Fs → Store → Nat → String → List Expression → Res Expression
  | 0, _, _, _, _, _ => .timeout
  | fuel + 1, fs, st, i, name, args =>
    match name with
    | "+" =>
      -- PLUS (builtin.rs lines 11-39)
      match eval_args fuel fs st i args with
      | .ok vals st' =>
        if has_float vals then
          match map_f64 vals with
          | some qs => .ok (.float (qs.foldl (· + ·) 0)) st'
          | none => .err "Not a float" st'
        else
          match map_i64 vals with
          | some zs => .ok (.integer (zs.foldl (· + ·) 0)) st'
          | none => .err "Not an integer" st'
      | .err msg st' => .err msg st'
      | .panic => .panic
      | .timeout => .timeout
      | .stuck => .stuck
    | "define" =>
      -- DEFINE (builtin.rs lines 167-183)
      match args.get? 0, args.get? 1 with
      | some nm, some value =>
        match nm with
        | .symbol s =>
          match eval_expression fuel fs st i value with
          | .ok v st' => .ok .nil (set_global st' i s v)
          | r => r
        | _ => .ok .nil st
      | _, _ => .panic
    | "let" =>
      -- LET (builtin.rs lines 185-200)
      match args.get? 0, args.get? 1 with
      | some nm, some value =>
        match nm with
        | .symbol s =>
          match eval_expression fuel fs st i value with
          | .ok v st' =>
            match args.get? 2 with
            | some b => eval_expression fuel fs (set_local st' i s v) i b
            | none => .panic
          | r => r
        | _ =>
          match args.get? 2 with
          | some b => eval_expression fuel fs st i b
          | none => .panic
      | _, _ => .panic
    | "quote" =>
      -- QUOTE (builtin.rs lines 878-881)
      match args.get? 0 with
      | some a => .ok a st
      | none => .panic
    | "import" =>
      -- IMPORT (builtin.rs lines 811-841)
      match args.get? 0 with
      | none => .panic
      | some p =>
        match p with
        | .str path =>
          match fs.lookup path with
          | none => .err "No such file" st
          | some forms =>
            let n := st.length
            match run_forms fuel fs (st ++ [std_lib, Env.new (some n)]) (n + 1) forms with
            | .ok _ st₂ =>
              match envGet fuel st₂ (n + 1) "__EXPORTED" with
              | .found (.table t) =>
                match copy_imported st₂ i t with
                | .ok _ st₃ => .ok .nil st₃
                | .err msg s => .err msg s
                | .panic => .panic
                | .timeout => .timeout
                | .stuck => .stuck
              | .found _ => .err "Not a table" st₂
              | .notFound => .panic
              | .panic => .panic
              | .timeout => .timeout
            | r => r
        | _ => .err "Not a string" st
    | "export" =>
      -- EXPORT (builtin.rs lines 843-860)
      match args.get? 0 with
      | none => .panic
      | some sym =>
        match sym with
        | .symbol s =>
          match envGet fuel st i s with
          | .found v =>
            match st.get? i with
            | none => .panic
            | some f =>
              match assocGet f.locals "__EXPORTED" with
              | none => .panic
              | some (.table t) =>
                .ok .nil (set_local st i "__EXPORTED" (.table (assocSet t s v)))
              | some _ => .ok .nil st
          | .notFound => .panic
          | .panic => .panic
          | .timeout => .timeout
        | _ => .err "Not a symbol" st
    | _ => .stuck
termination_by structural fuel => fuel

end

/-! ### Spec-side descriptions (used to state the theorems, written from the
wording of the spec/claims rather than from the source) -/

/-- An expression every branch of `eval_expression` returns unchanged
(every variant except Symbol and List). -/
def is_atom : Expression → Bool
  | .symbol _ => false
  | .list _ => false
  | _ => true

/-- Spec-side description of the argument map built by under/over-application:
pair the parameter names with the supplied argument expressions positionally,
drop the `_` placeholders, and collect the remaining pairs left to right. -/
def spec_map (names : List String) (args : List Expression) :
    List (String × Expression) :=
  ((names.zip args).filter fun p => !is_underscore p.2).foldl
    (fun acc p => assocSet acc p.1 p.2) []

/-- Spec-side description of full application's bindings: parameter names
zipped with the argument values positionally, collected left to right. -/
def bind_all (names : List String) (args : List Expression) :
    List (String × Expression) :=
  (names.zip args).foldl (fun acc p => assocSet acc p.1 p.2) []

/-- Value is a Float. -/
def is_float_val : Expression → Bool
  | .float _ => true
  | _ => false

/-- Value is an Integer. -/
def is_int_val : Expression → Bool
  | .integer _ => true
  | _ => false

/-- Payload of a Float (junk elsewhere; only used under `is_float_val`). -/
def float_val : Expression → ℚ
  | .float q => q
  | _ => 0

/-- Payload of an Integer (junk elsewhere; only used under `is_int_val`). -/
def int_val : Expression → Int
  | .integer z => z
  | _ => 0

/-- Spec-side contract of `+` on the already-evaluated operands: if any operand
is a Float, the result is their Float sum when all operands are Floats and a type
error otherwise (`as_f64` accepts nothing but Floats); with no Float present,
the result is the Integer sum when all operands are Integers and a type error
otherwise. -/
def plus_spec (vals : List Expression) (st : Store) : Res Expression :=
  if vals.any is_float_val then
    if vals.all is_float_val then
      .ok (.float ((vals.map float_val).foldl (· + ·) 0)) st
    else .err "Not a float" st
  else
    if vals.all is_int_val then
      .ok (.integer ((vals.map int_val).foldl (· + ·) 0)) st
    else .err "Not an integer" st

/-! ### Concrete sample inputs for the counterexamples and witnesses -/

/-- A user function `(function (x y) (+ x y))`. -/
def add_xy : Expression :=
  .function [.symbol "x", .symbol "y"] (.list [.symbol "+", .symbol "x", .symbol "y"])

/-- The spec's example `(function (x y z) (+ x y z))`. -/
def add_xyz : Expression :=
  .function [.symbol "x", .symbol "y", .symbol "z"]
    (.list [.symbol "+", .symbol "x", .symbol "y", .symbol "z"])

/-- A root frame holding just the `+` builtin. -/
def plus_root : Env := ⟨none, [("+", .builtin "+")]⟩

/-- A root frame holding the `+` builtin and a user binding `x ↦ 10`. -/
def shadow_root : Env := ⟨none, [("+", .builtin "+"), ("x", .integer 10)]⟩

/-- `(function (x y) (+ x (+ x y)))`: the second occurrence of `x` sits inside
a nested list, below the top level of the body. -/
def add_nested : Expression :=
  .function [.symbol "x", .symbol "y"]
    (.list [.symbol "+", .symbol "x", .list [.symbol "+", .symbol "x", .symbol "y"]])

/-- The nested-`let` example of the spec,
`(let x 1 (let y 2 (let z 3 (+ x y z))))`. -/
def nested_let : Expression :=
  .list [.symbol "let", .symbol "x", .integer 1,
    .list [.symbol "let", .symbol "y", .integer 2,
      .list [.symbol "let", .symbol "z", .integer 3,
        .list [.symbol "+", .symbol "x", .symbol "y", .symbol "z"]]]]

/-- A four-frame chain: root `0` ← `1` ← `2` ← `3`. -/
def chain4 : Store := [⟨none, []⟩, ⟨some 0, []⟩, ⟨some 1, []⟩, ⟨some 2, []⟩]

/-- The parsed top-level forms of a module file `"m"`:
`(define y 1)` followed by `(export y)`. -/
def module_forms : List Expression :=
  [.list [.symbol "define", .symbol "y", .integer 1],
   .list [.symbol "export", .symbol "y"]]

/-- A file system exposing that module under path `"m"`. -/
def module_fs : Fs := [("m", module_forms)]

/-! ### Helper lemmas -/

/-- Self-evaluating variants come back unchanged with the store untouched. -/
theorem eval_atom (fuel : Nat) (fs : Fs) (st : Store) (i : Nat) {a : Expression}
    (h : is_atom a = true) : eval_expression (fuel + 1) fs st i a = .ok a st := by
  cases a <;> simp_all [eval_expression, is_atom]

/-- An atom is never the `_` placeholder. -/
theorem atom_not_underscore {a : Expression} (h : is_atom a = true) :
    is_underscore a = false := by
  cases a <;> simp_all [is_atom, is_underscore]

/-- Setting at the index just past `l` rewrites the appended element. -/
theorem set_concat_length {α : Type} (l : List α) (a b : α) :
    (l ++ [a]).set l.length b = l ++ [b] := by
  induction l with
  | nil => rfl
  | cons x xs ih => simp [ih]

/-- `set_local` on the frame appended at the end of the store. -/
theorem set_local_append (st : Store) (f : Env) (k : String) (v : Expression) :
    set_local (st ++ [f]) st.length k v
      = st ++ [{ f with locals := assocSet f.locals k v }] := by
  simp [set_local, set_concat_length]

/-- Unrolling the full-application binding loop when every argument expression
is self-evaluating: the values land positionally (left to right) in the local
map of the freshly appended frame, and the body is then evaluated there. -/
theorem bind_loop_atoms (fuel : Nat) (fs : Fs) (i : Nat) (body : Expression) (st : Store) :
    ∀ (names : List String) (args : List Expression) (mp : List (String × Expression)),
      (∀ a ∈ args, is_atom a = true) → names.length = args.length →
      bind_loop (fun j st' e => eval_expression (fuel + 1) fs st' j e) i st.length
          (st ++ [⟨some i, mp⟩]) (names.map .symbol) args body
        = eval_expression (fuel + 1) fs
            (st ++ [⟨some i, (names.zip args).foldl (fun acc p => assocSet acc p.1 p.2) mp⟩])
            st.length body := by
  intro names
  induction names with
  | nil =>
    intro args mp hat hlen
    cases args with
    | nil => simp [bind_loop]
    | cons a rest => simp at hlen
  | cons n ns ih =>
    intro args mp hat hlen
    cases args with
    | nil => simp at hlen
    | cons a rest =>
      simp only [List.map_cons, List.zip_cons_cons, List.foldl_cons, bind_loop]
      simp only [eval_atom fuel fs _ i (hat a (by simp)), set_local_append]
      exact ih rest (assocSet mp n a) (fun b hb => hat b (by simp [hb])) (by simpa using hlen)

/-- `has_float` is the any-Float test. -/
theorem has_float_eq (l : List Expression) : has_float l = l.any is_float_val := rfl

/-- The all-or-nothing `as_f64` collection succeeds exactly on all-Float lists,
returning their payloads. -/
theorem map_f64_eq (l : List Expression) :
    map_f64 l = if l.all is_float_val then some (l.map float_val) else none := by
  induction l with
  | nil => rfl
  | cons a rest ih => cases a <;> simp_all [map_f64, is_float_val, float_val]

/-- The all-or-nothing `as_i64` collection succeeds exactly on all-Integer
lists, returning their payloads. -/
theorem map_i64_eq (l : List Expression) :
    map_i64 l = if l.all is_int_val then some (l.map int_val) else none := by
  induction l with
  | nil => rfl
  | cons a rest ih => cases a <;> simp_all [map_i64, is_int_val, int_val]

/-- The under-application map loop, when the positions stay in bounds, builds
exactly the positional name/argument pairs with the `_` placeholders dropped. -/
theorem build_map_eq_fold (names : List String) :
    ∀ (args : List Expression) (j : Nat) (mp : List (String × Expression)),
      args.length + j ≤ names.length →
      build_map (names.map .symbol) args j mp
        = .ok (((((names.drop j).zip args)).filter fun p => !is_underscore p.2).foldl
            (fun acc p => assocSet acc p.1 p.2) mp) := by
  intro args
  induction args with
  | nil => intro j mp _; simp [build_map]
  | cons a rest ih =>
    intro j mp h
    have hj : j < names.length := by simp at h; omega
    have hdrop : names.drop j = names[j] :: names.drop (j + 1) :=
      List.drop_eq_getElem_cons hj
    have hget : (names.map Expression.symbol).get? j = some (.symbol names[j]) := by
      simp [List.get?_eq_getElem?, List.getElem?_map, List.getElem?_eq_getElem hj]
    by_cases hu : is_underscore a
    · simp only [build_map, hu, if_true]
      rw [ih (j + 1) mp (by simp at h ⊢; omega), hdrop]
      simp only [List.zip_cons_cons, List.filter_cons]
      simp [hu]
    · simp only [build_map, hu]
      simp only [if_false, Bool.false_eq_true, hget]
      rw [ih (j + 1) (assocSet mp names[j] a) (by simp at h ⊢; omega), hdrop]
      simp only [List.zip_cons_cons, List.filter_cons]
      simp [hu]

/-- The under/over-application map loop panics as soon as it reaches an
out-of-bounds position whose argument is not the `_` placeholder. -/
theorem build_map_oob (names : List String) :
    ∀ (args : List Expression) (j : Nat) (mp : List (String × Expression)),
      (∃ a ∈ args.drop (names.length - j), is_underscore a = false) →
      build_map (names.map .symbol) args j mp = .panic := by
  intro args
  induction args with
  | nil =>
    intro j mp h
    simp at h
  | cons a rest ih =>
    intro j mp h
    by_cases hu : is_underscore a
    · simp only [build_map, hu, if_true]
      apply ih (j + 1) mp
      rcases Nat.eq_zero_or_pos (names.length - j) with h0 | hpos
      · rw [h0] at h
        have h0' : names.length - (j + 1) = 0 := by omega
        rw [h0']
        simp only [List.drop_zero] at h ⊢
        rcases h with ⟨w, hw, hwu⟩
        rcases List.mem_cons.mp hw with rfl | hw'
        · rw [hu] at hwu; cases hwu
        · exact ⟨w, hw', hwu⟩
      · obtain ⟨k, hk⟩ : ∃ k, names.length - j = k + 1 :=
          ⟨names.length - j - 1, by omega⟩
        rw [hk] at h
        have hk' : names.length - (j + 1) = k := by omega
        rw [hk']
        simpa using h
    · by_cases hj : j < names.length
      · have hget : (names.map Expression.symbol).get? j = some (.symbol names[j]) := by
          simp [List.get?_eq_getElem?, List.getElem?_map, List.getElem?_eq_getElem hj]
        simp only [build_map, hu, if_false, Bool.false_eq_true, hget]
        apply ih (j + 1) (assocSet mp names[j] a)
        obtain ⟨k, hk⟩ : ∃ k, names.length - j = k + 1 :=
          ⟨names.length - j - 1, by omega⟩
        rw [hk] at h
        have hk' : names.length - (j + 1) = k := by omega
        rw [hk']
        simpa using h
      · have hget : names[j]? = none := List.getElem?_eq_none (by omega)
        simp [build_map, hu, hget]

/-! ### Claim theorems -/

/-- Claim C1, counterexample: evaluating the non-empty, unquoted list `(1 2)`
in the standard environment does not recurse into call dispatch — it returns
the list itself as plain data, while call dispatch on the same list would have
produced `Integer 1` (the non-callable head).  This refutes "every non-empty
list is treated as a call whatever the head is". -/
theorem c1_counterexample :
    eval_expression 10 [] [std_lib] 0 (.list [.integer 1, .integer 2])
      = .ok (.list [.integer 1, .integer 2]) [std_lib] ∧
    eval_call 10 [] [std_lib] 0 [.integer 1, .integer 2]
      = .ok (.integer 1) [std_lib] :=
  ⟨rfl, rfl⟩

/-- Claim C1, amended: a non-empty list is dispatched as a call iff its head is
a Symbol with a binding, or the head evaluates (side effects kept) to a
Function; any other non-empty list evaluates to itself as data even though it
was not quoted. -/
theorem c1_amended :
    (∀ fuel fs st i l s v, l.get? 0 = some (.symbol s) →
        envGet fuel st i s = .found v →
        eval_expression (fuel + 1) fs st i (.list l) = eval_call fuel fs st i l) ∧
    (∀ fuel fs st i l h v st', l.get? 0 = some h →
        (∀ s, h = .symbol s → envGet fuel st i s = .notFound) →
        eval_expression fuel fs st i h = .ok v st' →
        (∀ ps b, v ≠ .function ps b) →
        eval_expression (fuel + 1) fs st i (.list l) = .ok (.list l) st') ∧
    (∀ fuel fs st i l h ps b st', l.get? 0 = some h →
        (∀ s, h = .symbol s → envGet fuel st i s = .notFound) →
        eval_expression fuel fs st i h = .ok (.function ps b) st' →
        eval_expression (fuel + 1) fs st i (.list l) = eval_call fuel fs st' i l) := by
  refine ⟨?_, ?_, ?_⟩
  · intro fuel fs st i l s v hget hres
    simp only [eval_expression, hget, hres]
  · intro fuel fs st i l h v st' hget hns heval hv
    cases h <;>
      simp only [eval_expression, hget, heval] <;>
      cases v <;>
      simp_all
  · intro fuel fs st i l h ps b st' hget hns heval
    cases h <;> simp_all [eval_expression]

/-- Claim C1, witness for the amended theorem: `("a")` (head a String with no
binding and not a Function) evaluates to itself as data. -/
theorem c1_witness :
    eval_expression 4 [] [std_lib] 0 (.str "a") = .ok (.str "a") [std_lib] ∧
    eval_expression 5 [] [std_lib] 0 (.list [.str "a"])
      = .ok (.list [.str "a"]) [std_lib] :=
  ⟨rfl,
   c1_amended.2.1 4 [] [std_lib] 0 [.str "a"] (.str "a") (.str "a") [std_lib] rfl
     (fun s h => nomatch h) rfl (fun ps b h => nomatch h)⟩

/-- Claim C2, counterexample: calling `(function (x y) (+ x y))` with the one
argument `1` yields the Function `(function (y) (+ 1 y))` — the supplied
argument has been substituted for `x` at the top level of the body — and not
the Function the claim describes, whose body would be the List
`(<original callable> 1)` wrapping the original callable expression. -/
theorem c2_counterexample :
    eval_call 10 [] [std_lib] 0 [add_xy, .integer 1]
      = .ok (.function [.symbol "y"]
              (.list [.symbol "+", .integer 1, .symbol "y"]))
          [std_lib, ⟨some 0, []⟩] ∧
    Expression.function [.symbol "y"] (.list [.symbol "+", .integer 1, .symbol "y"])
      ≠ .function [.symbol "y"] (.list [add_xy, .integer 1]) :=
  ⟨rfl, by simp [add_xy]⟩

/-- Claim C2, amended: under-application of a Function with symbol parameters
(entered when the argument count differs from the parameter count, or a `_`
placeholder occurs among the arguments) with a List body returns a new
Function; the supplied argument expressions are paired positionally with the
parameter names (skipping `_`), each top-level occurrence of a paired
parameter symbol in the body list is replaced by the corresponding argument
expression verbatim, and the parameters that received no argument survive.
A non-List body yields Nil instead.  (A fresh, unused frame is allocated on
the way, so the store grows by one empty frame.) -/
theorem c2_amended (fuel : Nat) (fs : Fs) (st : Store) (i : Nat)
    (names : List String) (args : List Expression)
    (hk : args.length ≤ names.length)
    (hbr : args.length ≠ names.length ∨ args.any is_underscore = true) :
    (∀ body_list,
      eval_call (fuel + 2) fs st i
          (.function (names.map .symbol) (.list body_list) :: args)
        = .ok (.function (new_arguments (names.map .symbol) (spec_map names args))
                (.list (new_body body_list (spec_map names args))))
            (st ++ [⟨some i, []⟩])) ∧
    (∀ body, (∀ bl, body ≠ .list bl) →
      eval_call (fuel + 2) fs st i (.function (names.map .symbol) body :: args)
        = .ok .nil (st ++ [⟨some i, []⟩])) := by
  have hcond : ((names.map Expression.symbol).length
        != (Expression.function (names.map .symbol) (.list []) :: args).length - 1
      || ((Expression.function (names.map .symbol) (.list []) :: args).any is_underscore))
      = true := by
    rcases hbr with hne | hun
    · simp
      exact .inl fun hc => hne hc.symm
    · simp [is_underscore, hun]
  constructor
  · intro body_list
    simp only [eval_call, eval_expression, caller_loop, List.get?_cons_zero]
    have hcond' : ((names.map Expression.symbol).length
          != (Expression.function (names.map .symbol) (.list body_list) :: args).length - 1
        || ((Expression.function (names.map .symbol) (.list body_list) :: args).any
              is_underscore)) = true := by
      simpa using hcond
    rw [hcond']
    simp only [if_true, List.drop_succ_cons, List.drop_zero]
    rw [build_map_eq_fold names args 0 [] (by omega)]
    simp [spec_map]
  · intro body hb
    simp only [eval_call, eval_expression, caller_loop, List.get?_cons_zero]
    have hcond' : ((names.map Expression.symbol).length
          != (Expression.function (names.map .symbol) body :: args).length - 1
        || ((Expression.function (names.map .symbol) body :: args).any
              is_underscore)) = true := by
      simpa using hcond
    rw [hcond']
    cases body <;> simp_all

/-- Claim C2, witness for the amended theorem: `((function (x y) (+ x y)) 1)`
produces `(function (y) (+ 1 y))`. -/
theorem c2_witness :
    (1 : Nat) ≤ 2 ∧
    eval_call 4 [] [std_lib] 0 [add_xy, .integer 1]
      = .ok (.function [.symbol "y"]
              (.list [.symbol "+", .integer 1, .symbol "y"]))
          [std_lib, ⟨some 0, []⟩] :=
  ⟨by omega,
   ((c2_amended 2 [] [std_lib] 0 ["x", "y"] [.integer 1] (by simp)
      (.inl (by simp))).1 [.symbol "+", .symbol "x", .symbol "y"]).trans rfl⟩

/-- Claim C3, counterexample: for `f = (function (x y) (+ x (+ x y)))` in an
environment where `+` is bound and `x ↦ 10`, applying all arguments at once
gives `(f 1 2) = Integer 4`, but applying `1` first and then `2` to the
resulting Function gives `Integer 13`: the shallow substitution misses the
nested occurrence of `x`, which then resolves dynamically to the outer
`x ↦ 10`.  Both computations terminate, so currying is not equivalent to full
application. -/
theorem c3_counterexample :
    eval_call 25 [] [shadow_root] 0 [add_nested, .integer 1, .integer 2]
      = .ok (.integer 4)
          [shadow_root, ⟨some 0, [("x", .integer 1), ("y", .integer 2)]⟩] ∧
    eval_call 25 [] [shadow_root] 0 [add_nested, .integer 1]
      = .ok (.function [.symbol "y"]
              (.list [.symbol "+", .integer 1,
                      .list [.symbol "+", .symbol "x", .symbol "y"]]))
          [shadow_root, ⟨some 0, []⟩] ∧
    eval_call 25 [] [shadow_root, ⟨some 0, []⟩] 0
        [.function [.symbol "y"]
          (.list [.symbol "+", .integer 1,
                  .list [.symbol "+", .symbol "x", .symbol "y"]]),
         .integer 2]
      = .ok (.integer 13)
          [shadow_root, ⟨some 0, []⟩, ⟨some 0, [("y", .integer 2)]⟩] ∧
    Expression.integer 4 ≠ Expression.integer 13 :=
  ⟨rfl, rfl, rfl, by simp⟩

/-- Claim C3, amended: the `k`-then-`n−k` equivalence does hold on the spec's
own example, whose body is flat: `(add-xyz 1)` yields a binary Function that
applied to `2 3` gives `Integer 6`, and `(add-xyz 1 2 3)` directly gives
`Integer 6` — but it fails in general, as soon as a supplied parameter occurs
below the top level of the body list (see the counterexample). -/
theorem c3_amended :
    eval_call 20 [] [plus_root] 0 [add_xyz, .integer 1]
      = .ok (.function [.symbol "y", .symbol "z"]
              (.list [.symbol "+", .integer 1, .symbol "y", .symbol "z"]))
          [plus_root, ⟨some 0, []⟩] ∧
    eval_call 20 [] [plus_root, ⟨some 0, []⟩] 0
        [.function [.symbol "y", .symbol "z"]
          (.list [.symbol "+", .integer 1, .symbol "y", .symbol "z"]),
         .integer 2, .integer 3]
      = .ok (.integer 6)
          [plus_root, ⟨some 0, []⟩,
           ⟨some 0, [("y", .integer 2), ("z", .integer 3)]⟩] ∧
    eval_call 20 [] [plus_root] 0 [add_xyz, .integer 1, .integer 2, .integer 3]
      = .ok (.integer 6)
          [plus_root,
           ⟨some 0, [("x", .integer 1), ("y", .integer 2), ("z", .integer 3)]⟩] :=
  ⟨rfl, rfl, rfl⟩

/-- Claim C4, counterexample: `(function (x) 7)` called with exactly one
argument, the placeholder `_`, does not bind the parameter and evaluate the
body (which would give `Integer 7`): the `_` sends the call into the
under/over-application branch, and since the body is not a List the call
returns Nil. -/
theorem c4_counterexample :
    eval_call 10 [] [plus_root] 0
        [.function [.symbol "x"] (.integer 7), .symbol "_"]
      = .ok .nil [plus_root, ⟨some 0, []⟩] ∧
    Expression.nil ≠ .integer 7 :=
  ⟨rfl, by simp⟩

/-- Claim C4, amended: a Function with `n` symbol parameters called with
exactly `n` argument expressions, none of which is the `_` placeholder (here:
self-evaluating arguments, which are never `_`), binds the argument values
positionally, left to right, in a fresh frame whose parent is the caller's
frame — not any definition-site environment, which a Function does not even
carry — and evaluates the body in that frame, returning its result. -/
theorem c4_amended (fuel : Nat) (fs : Fs) (st : Store) (i : Nat)
    (names : List String) (args : List Expression) (body : Expression)
    (hat : ∀ a ∈ args, is_atom a = true)
    (hlen : names.length = args.length) :
    eval_call (fuel + 2) fs st i (.function (names.map .symbol) body :: args)
      = eval_expression (fuel + 1) fs (st ++ [⟨some i, bind_all names args⟩])
          st.length body := by
  simp only [eval_call, eval_expression, caller_loop, List.get?_cons_zero]
  have hcond : ((names.map Expression.symbol).length
        != (Expression.function (names.map .symbol) body :: args).length - 1
      || ((Expression.function (names.map .symbol) body :: args).any is_underscore))
      = false := by
    simp [hlen, is_underscore]
    intro a ha
    exact atom_not_underscore (hat a ha)
  rw [hcond]
  simp only [Bool.false_eq_true, if_false, List.drop_succ_cons, List.drop_zero]
  exact bind_loop_atoms fuel fs i body st names args [] hat hlen

/-- Claim C4, witness for the amended theorem:
`((function (x y) x) 10 20) = Integer 10`, computed in the fresh caller-parented
frame binding `x ↦ 10, y ↦ 20`. -/
theorem c4_witness :
    (∀ a ∈ [Expression.integer 10, Expression.integer 20], is_atom a = true) ∧
    eval_call 5 [] [plus_root] 0
        [.function [.symbol "x", .symbol "y"] (.symbol "x"),
         .integer 10, .integer 20]
      = .ok (.integer 10)
          [plus_root, ⟨some 0, [("x", .integer 10), ("y", .integer 20)]⟩] :=
  ⟨by intro a ha; simp at ha; rcases ha with rfl | rfl <;> rfl,
   (c4_amended 3 [] [plus_root] 0 ["x", "y"] [.integer 10, .integer 20]
      (.symbol "x")
      (by intro a ha; simp at ha; rcases ha with rfl | rfl <;> rfl) rfl).trans rfl⟩

/-- Claim C5: whenever the `Env::get` lookup order (local frame, parent chain,
`__IMPORTED` fallback) terminates with no binding for a symbol, evaluating
that symbol succeeds with Nil — `unwrap_or(Void)` — rather than failing, in
any environment and store. -/
theorem c5_unresolved_symbol_is_nil (fuel : Nat) (fs : Fs) (st : Store) (i : Nat)
    (s : String) (h : envGet fuel st i s = .notFound) :
    eval_expression (fuel + 1) fs st i (.symbol s) = .ok .nil st := by
  simp only [eval_expression, h]

/-- Claim C5, witness: in the frame produced by `Env::new` (which owns the two
seeded tables, so the lookup terminates), the unbound symbol `missing`
evaluates to Nil. -/
theorem c5_witness :
    envGet 5 [Env.new none] 0 "missing" = .notFound ∧
    eval_expression 6 [] [Env.new none] 0 (.symbol "missing")
      = .ok .nil [Env.new none] :=
  ⟨rfl, c5_unresolved_symbol_is_nil 5 [] [Env.new none] 0 "missing" rfl⟩

/-- Claim C6 (code bug): `(define x 42)` evaluated in the innermost frame of
the four-frame chain `3 → 2 → 1 → 0(root)` does not bind `x` in the outermost
frame 0: `set_global` delegates once to `set_parent`, which writes into its
parent's local map, so the binding lands in frame 1 — two parent links above
the current frame — and the root stays untouched. -/
theorem c6_define_misses_root :
    apply_builtin 5 [] chain4 3 "define" [.symbol "x", .integer 42]
      = .ok .nil
          [⟨none, []⟩, ⟨some 0, [("x", .integer 42)]⟩, ⟨some 1, []⟩, ⟨some 2, []⟩] ∧
    assocGet (⟨none, ([] : List (String × Expression))⟩ : Env).locals "x" = none :=
  ⟨rfl, rfl⟩

/-- Claim C7, counterexample: after `(let x 1 2)` evaluates (to `Integer 2`)
in the standard environment, the binding `x ↦ 1` remains in the enclosing
frame: the very next expression `x` sees it and evaluates to `Integer 1`, so
a `let` binding is not scoped to the `let`'s own body. -/
theorem c7_counterexample :
    eval_expression 10 [] [std_lib] 0
        (.list [.symbol "let", .symbol "x", .integer 1, .integer 2])
      = .ok (.integer 2) (set_local [std_lib] 0 "x" (.integer 1)) ∧
    envGet 5 (set_local [std_lib] 0 "x" (.integer 1)) 0 "x"
      = .found (.integer 1) ∧
    eval_expression 10 [] (set_local [std_lib] 0 "x" (.integer 1)) 0 (.symbol "x")
      = .ok (.integer 1) (set_local [std_lib] 0 "x" (.integer 1)) :=
  ⟨rfl, rfl, rfl⟩

/-- Claim C7, amended: the nested example
`(let x 1 (let y 2 (let z 3 (+ x y z))))` does evaluate to `Integer 6` in the
standard environment, but `let` writes its binding into the current frame and
never removes it: all three bindings persist in the global frame afterwards
(here witnessed by `x ↦ 1` still resolving). -/
theorem c7_amended :
    eval_expression 20 [] [std_lib] 0 nested_let
      = .ok (.integer 6)
          (set_local (set_local (set_local [std_lib] 0 "x" (.integer 1))
            0 "y" (.integer 2)) 0 "z" (.integer 3)) ∧
    envGet 5
        (set_local (set_local (set_local [std_lib] 0 "x" (.integer 1))
          0 "y" (.integer 2)) 0 "z" (.integer 3)) 0 "x"
      = .found (.integer 1) :=
  ⟨rfl, rfl⟩

/-- Claim C8 (code bug): importing the module `"m"` (which defines and exports
`y ↦ 1`) at the standard top-level environment aborts: the copy loop does
`get_mut_local("__IMPORTED").unwrap()` on the importer frame, and the root
built by `std_lib()` — unlike every `Env::new` frame — has no local
`__IMPORTED` entry.  The same import into an `Env::new` importer frame
(parented to the same root) succeeds exactly as the claim describes: the
module body runs in a fresh `Env::new` frame over a fresh `std_lib` registry
copy, and the exported entry is copied into the importer's `__IMPORTED`
table. -/
theorem c8_repl_import_panics :
    apply_builtin 20 module_fs [std_lib] 0 "import" [.str "m"] = .panic ∧
    apply_builtin 20 module_fs [std_lib, Env.new (some 0)] 1 "import" [.str "m"]
      = .ok .nil
          [std_lib,
           ⟨some 0, [("__EXPORTED", .table []),
                     ("__IMPORTED", .table [("y", .integer 1)])]⟩,
           ⟨none, std_lib.locals ++ [("y", .integer 1)]⟩,
           ⟨some 2, [("__EXPORTED", .table [("y", .integer 1)]),
                     ("__IMPORTED", .table [])]⟩] :=
  ⟨rfl, rfl⟩

/-- Claim C9, counterexample: `(+ 1.0 2)` does not produce `Float 3.0`: once a
Float operand is present the `+` builtin converts every operand with `as_f64`,
which rejects the Integer `2`, so the call fails with a type error. -/
theorem c9_counterexample :
    apply_builtin 5 [] [plus_root] 0 "+" [.float 1, .integer 2]
      = .err "Not a float" [plus_root] ∧
    (Res.err "Not a float" [plus_root] : Res Expression)
      ≠ .ok (.float 3) [plus_root] :=
  ⟨rfl, by simp⟩

/-- Claim C9, amended (for the cited `+` builtin): with all operands evaluated
left to right, a Float among the values forces the Float path — which sums the
payloads only when every value is a Float and otherwise fails with a type
error — while an all-Integer list yields their Integer sum and any other
Float-free list fails with a type error; in particular `(+ 1 2) = Integer 3`,
and `(+ 1.0 2)` is an error rather than `Float 3.0`. -/
theorem c9_amended :
    (∀ fuel fs st i args vals st',
      eval_args fuel fs st i args = .ok vals st' →
      apply_builtin (fuel + 1) fs st i "+" args = plus_spec vals st') ∧
    apply_builtin 5 [] [plus_root] 0 "+" [.integer 1, .integer 2]
      = .ok (.integer 3) [plus_root] := by
  constructor
  · intro fuel fs st i args vals st' h
    simp only [apply_builtin, h, plus_spec, ← has_float_eq, map_f64_eq, map_i64_eq]
    by_cases hf : has_float vals
    · simp only [hf, if_true]
      by_cases ha : vals.all is_float_val <;> simp [ha]
    · simp only [hf, Bool.false_eq_true, if_false]
      by_cases ha : vals.all is_int_val <;> simp [ha]
  · rfl

/-- Claim C9, witness for the amended theorem: the mixed call `(+ 1.0 2)`
follows the spec-side contract (and errs). -/
theorem c9_witness :
    eval_args 3 [] [plus_root] 0 [.float 1, .integer 2]
      = .ok [.float 1, .integer 2] [plus_root] ∧
    apply_builtin 4 [] [plus_root] 0 "+" [.float 1, .integer 2]
      = plus_spec [.float 1, .integer 2] [plus_root] :=
  ⟨rfl, c9_amended.1 3 [] [plus_root] 0 [.float 1, .integer 2]
          [.float 1, .integer 2] [plus_root] rfl⟩

/-- Claim C10, counterexample: over-application does not always abort — with
`f = (function (x) (x))`, the call `(f 1 _)` supplies `k = 2 > n = 1`
arguments, yet the out-of-bounds position holds the `_` placeholder, which the
map loop skips, so the call returns a Function value instead of aborting. -/
theorem c10_counterexample :
    eval_call 10 [] [plus_root] 0
        [.function [.symbol "x"] (.list [.symbol "x"]), .integer 1, .symbol "_"]
      = .ok (.function [] (.list [.integer 1])) [plus_root, ⟨some 0, []⟩] :=
  rfl

/-- Claim C10, amended: calling a Function with `n` symbol parameters and List
body with `k > n` arguments of which at least one beyond position `n` is not
the `_` placeholder makes the map loop read `arguments[i-1]` out of bounds, so
the call aborts (panics) instead of returning a value or reporting an arity
error. -/
theorem c10_amended (fuel : Nat) (fs : Fs) (st : Store) (i : Nat)
    (names : List String) (args : List Expression) (body_list : List Expression)
    (hover : names.length < args.length)
    (hex : ∃ a ∈ args.drop names.length, is_underscore a = false) :
    eval_call (fuel + 2) fs st i
        (.function (names.map .symbol) (.list body_list) :: args)
      = .panic := by
  simp only [eval_call, eval_expression, caller_loop, List.get?_cons_zero]
  have hcond : ((names.map Expression.symbol).length
        != (Expression.function (names.map .symbol) (.list body_list) :: args).length - 1
      || ((Expression.function (names.map .symbol) (.list body_list) :: args).any
            is_underscore)) = true := by
    simp
    exact .inl fun hc => absurd hc (by omega)
  rw [hcond]
  simp only [if_true, List.drop_succ_cons, List.drop_zero]
  rw [build_map_oob names args 0 [] (by simpa using hex)]

/-- Claim C10, witness for the amended theorem: `((function (x) (x)) 1 2)`
panics on the out-of-bounds parameter read. -/
theorem c10_witness :
    (1 : Nat) < 2 ∧
    eval_call 4 [] [plus_root] 0
        [.function [.symbol "x"] (.list [.symbol "x"]), .integer 1, .integer 2]
      = .panic :=
  ⟨by omega,
   c10_amended 2 [] [plus_root] 0 ["x"] [.integer 1, .integer 2] [.symbol "x"]
     (by simp) ⟨.integer 2, by simp, rfl⟩⟩

end Arcanya
